import Mathlib

/-!
Verification of the ledger and financial-product engine of a banking backend.

The definitions below are a shallow embedding of the TypeScript services
(account.service.ts, transaction.service.ts, deposit.service.ts,
loan.service.ts) together with the database schema constraints from the
migration file.  Monetary values are modelled as exact rationals; the
two-decimal output rounding of the source (Math.round(x * 100) / 100) is
modelled by round2.  Database state is a record of rows; each service
function is a state transformer returning Except for the throw/rollback
paths.  A key point of the embedding is connection handling: every service
function that opens its own pooled client commits its writes independently
of any caller, which is modelled by threading the committed state
explicitly through nested calls.
-/

namespace Banking

/-- Two-decimal rounding as performed by the source at output boundaries:
Math.round(x * 100) / 100.  JavaScript Math.round y is floor(y + 1/2),
written here with the executable floor on ℚ. -/
def round2 (x : ℚ) : ℚ := ((Rat.floor (x * 100 + 1/2) : ℤ) : ℚ) / 100

/-- Account status values from the accounts table CHECK constraint. -/
inductive AccountStatus
  | active
  | blocked
  | closed
deriving DecidableEq, Repr

/-- Transaction status values from the transactions table CHECK constraint. -/
inductive TxStatus
  | pending
  | completed
  | failed
  | cancelled
deriving DecidableEq, Repr

/-- Transaction type values from the transactions table CHECK constraint. -/
inductive TxType
  | transfer
  | payment
  | deposit
  | withdrawal
  | fee
  | interest
  | cashback
  | refund
deriving DecidableEq, Repr

/-- Deposit type values from the deposits table CHECK constraint. -/
inductive DepositType
  | fixed
  | flexible
  | savings
deriving DecidableEq, Repr

/-- Deposit status values from the deposits table CHECK constraint. -/
inductive DepositStatus
  | active
  | closed
  | matured
deriving DecidableEq, Repr

/-- Domain and database errors thrown by the services. -/
inductive BankError
  | accountNotFound
  | accountInactive
  | insufficientFunds
  | checkViolation
  | depositNotFound
  | depositNotActive
  | autoRenewalNotEnabled
  | recipientNotFound
  | noMatchingCurrencyAccount
  | currencyMismatch
  | injectedFailure
deriving DecidableEq, Repr

/-- A row of the users table (only the columns the claims need). -/
structure User where
  id : Nat
  phone : String
deriving DecidableEq, Repr

/-- A row of the accounts table.  Dates and the interest_rate column are not
needed by any claim and are omitted. -/
structure Account where
  id : Nat
  user_id : Nat
  account_number : String
  account_type : String
  currency : String
  balance : ℚ
  available_balance : ℚ
  status : AccountStatus
deriving DecidableEq, Repr

/-- A row of the transactions table (timestamps and free-form metadata are
omitted; the reference number is abstracted to a Nat). -/
structure TxnRow where
  id : Nat
  from_account_id : Option Nat
  to_account_id : Option Nat
  transaction_type : TxType
  amount : ℚ
  currency : String
  fee : ℚ
  status : TxStatus
  reference_number : Nat
  description : Option String
deriving DecidableEq, Repr

/-- A row of the deposits table (start and maturity dates are omitted; no
claim depends on them). -/
structure Deposit where
  id : Nat
  user_id : Nat
  account_id : Option Nat
  deposit_type : DepositType
  principal_amount : ℚ
  interest_rate : ℚ
  term_months : Nat
  current_balance : ℚ
  status : DepositStatus
  is_auto_renewal : Bool
deriving DecidableEq, Repr

/-- The committed database state. -/
structure DB where
  users : List User
  accounts : List Account
  transactions : List TxnRow
  deposits : List Deposit
deriving DecidableEq, Repr

/-- SELECT * FROM accounts WHERE id = accountId (first matching row). -/
def findAccount (db : DB) (accountId : Nat) : Option Account :=
  db.accounts.find? (fun a => a.id == accountId)

/-- UPDATE accounts SET balance, available_balance WHERE id = accountId. -/
def setAccountBalance (db : DB) (accountId : Nat) (newBalance newAvailable : ℚ) : DB :=
  { db with accounts := db.accounts.map (fun a =>
      if a.id == accountId then
        { a with balance := newBalance, available_balance := newAvailable }
      else a) }

/-- SELECT * FROM deposits WHERE id = depositId (first matching row). -/
def findDeposit (db : DB) (depositId : Nat) : Option Deposit :=
  db.deposits.find? (fun d => d.id == depositId)

/-- UPDATE of the deposits row with the given id. -/
def setDepositRow (db : DB) (depositId : Nat) (newRow : Deposit) : DB :=
  { db with deposits := db.deposits.map (fun d =>
      if d.id == depositId then newRow else d) }

/-- Embedding of account.service.ts updateAccountBalance.  The function
opens its own pooled client with its own BEGIN/COMMIT, so a successful call
is committed immediately and independently of any enclosing caller, and a
failing call commits nothing.  The debit path first checks
available_balance < amount and throws Insufficient funds.  The final UPDATE
is subject to the accounts table constraint CHECK (balance >= 0) from the
schema, modelled as the checkViolation error. -/
def updateAccountBalance (db : DB) (accountId : Nat) (amount : ℚ) (isDebit : Bool) :
    Except BankError DB :=
  match findAccount db accountId with
  | none => .error .accountNotFound
  | some acc =>
    if isDebit ∧ acc.available_balance < amount then
      .error .insufficientFunds
    else
      let newBalance := if isDebit then acc.balance - amount else acc.balance + amount
      let newAvailable :=
        if isDebit then acc.available_balance - amount else acc.available_balance + amount
      if newBalance < 0 then .error .checkViolation
      else .ok (setAccountBalance db accountId newBalance newAvailable)

/-- Embedding of account.service.ts createAccount: inserts a fresh account
row with balance 0 and available_balance 0 and status active.  The generated
unique account number and the fresh row id are passed in explicitly. -/
def createAccount (db : DB) (userId : Nat) (accountType currency : String)
    (newId : Nat) (accountNumber : String) : DB :=
  { db with accounts :=
      { id := newId
        user_id := userId
        account_number := accountNumber
        account_type := accountType
        currency := currency
        balance := 0
        available_balance := 0
        status := AccountStatus.active } :: db.accounts }

/-- Input of createTransaction (CreateTransactionDto from types/index.ts;
free-form metadata is omitted). -/
structure CreateTransactionDto where
  from_account_id : Option Nat
  to_account_id : Option Nat
  transaction_type : TxType
  amount : ℚ
  currency : String
  description : Option String
deriving DecidableEq, Repr

/-- Validation of one leg of a transaction, as performed at the top of
createTransaction: if the account id is present, the account must exist and
have status active. -/
def validateLeg (db : DB) (leg : Option Nat) : Option BankError :=
  match leg with
  | none => none
  | some accId =>
    match findAccount db accId with
    | none => some .accountNotFound
    | some a => if a.status = AccountStatus.active then none else some .accountInactive

/-- Fault-injection points used to probe the atomicity of createTransaction,
mirroring the specification's atomicity-under-failure test: a failure can be
injected after the pending row insert, or after the debit leg. -/
inductive FailPoint
  | noFail
  | afterInsert
  | afterDebit
deriving DecidableEq, Repr

/-- Embedding of transaction.service.ts createTransaction.  The function
runs on one pooled client: BEGIN, validate both legs, INSERT the pending
row, debit the source leg, credit the destination leg, UPDATE the row to
completed, COMMIT.  The INSERT is subject to the schema constraints
CHECK (amount > 0) and check_accounts (at least one account id non-null).
Crucially, the two balance mutations go through updateAccountBalance, which
opens its own client and commits on its own: a debit that succeeded is
already committed even if a later step fails, while the pending row and the
status update live on this client and are discarded by its ROLLBACK.  The
pair returned is the thrown-or-returned value together with the committed
database state after the call. -/
def createTransaction (db : DB) (dto : CreateTransactionDto)
    (newTxnId referenceNumber : Nat) (failAt : FailPoint) :
    (Except BankError TxnRow) × DB :=
  match validateLeg db dto.from_account_id with
  | some e => (.error e, db)
  | none =>
  match validateLeg db dto.to_account_id with
  | some e => (.error e, db)
  | none =>
    if ¬ (0 < dto.amount ∧ (dto.from_account_id.isSome ∨ dto.to_account_id.isSome)) then
      (.error .checkViolation, db)
    else if failAt = FailPoint.afterInsert then
      (.error .injectedFailure, db)
    else
      match (match dto.from_account_id with
             | none => Except.ok db
             | some fromId => updateAccountBalance db fromId dto.amount true) with
      | .error e => (.error e, db)
      | .ok db1 =>
        if failAt = FailPoint.afterDebit then
          (.error .injectedFailure, db1)
        else
          match (match dto.to_account_id with
                 | none => Except.ok db1
                 | some toId => updateAccountBalance db1 toId dto.amount false) with
          | .error e => (.error e, db1)
          | .ok db2 =>
            let txn : TxnRow :=
              { id := newTxnId
                from_account_id := dto.from_account_id
                to_account_id := dto.to_account_id
                transaction_type := dto.transaction_type
                amount := dto.amount
                currency := dto.currency
                fee := 0
                status := TxStatus.completed
                reference_number := referenceNumber
                description := dto.description }
            (.ok txn, { db2 with transactions := db2.transactions ++ [txn] })

/-- Embedding of transaction.service.ts transferToPhone.  Resolves the
recipient by phone, picks the recipient's first active account in the
sender's currency, delegates to createTransaction — and then ends with a
bare return, so on the success path the caller receives undefined rather
than the created transaction.  That undefined is modelled as none in the
Option result. -/
def transferToPhone (db : DB) (_fromUserId : Nat) (fromAccountId : Nat) (toPhone : String)
    (amount : ℚ) (description : Option String) (newTxnId referenceNumber : Nat) :
    (Except BankError (Option TxnRow)) × DB :=
  match db.users.find? (fun u => u.phone == toPhone) with
  | none => (.error .recipientNotFound, db)
  | some recipient =>
    match findAccount db fromAccountId with
    | none => (.error .accountNotFound, db)
    | some fromAccount =>
      match db.accounts.find? (fun a =>
          a.user_id == recipient.id && a.currency == fromAccount.currency &&
            a.status == AccountStatus.active) with
      | none => (.error .noMatchingCurrencyAccount, db)
      | some toAccount =>
        match createTransaction db
            { from_account_id := some fromAccountId
              to_account_id := some toAccount.id
              transaction_type := TxType.transfer
              amount := amount
              currency := fromAccount.currency
              description := some (description.getD ("Transfer to " ++ toPhone)) }
            newTxnId referenceNumber FailPoint.noFail with
        | (.error e, db') => (.error e, db')
        | (.ok _, db') => (.ok none, db')

/-- Embedding of transaction.service.ts transferToAccount.  Resolves the
destination account by account number, requires it active and in the same
currency as the source, delegates to createTransaction and returns the
created transaction. -/
def transferToAccount (db : DB) (fromAccountId : Nat) (toAccountNumber : String)
    (amount : ℚ) (description : Option String) (newTxnId referenceNumber : Nat) :
    (Except BankError (Option TxnRow)) × DB :=
  match db.accounts.find? (fun a => a.account_number == toAccountNumber) with
  | none => (.error .accountNotFound, db)
  | some toAccount =>
    if toAccount.status ≠ AccountStatus.active then (.error .accountInactive, db)
    else
      match findAccount db fromAccountId with
      | none => (.error .accountNotFound, db)
      | some fromAccount =>
        if fromAccount.currency ≠ toAccount.currency then (.error .currencyMismatch, db)
        else
          match createTransaction db
              { from_account_id := some fromAccountId
                to_account_id := some toAccount.id
                transaction_type := TxType.transfer
                amount := amount
                currency := fromAccount.currency
                description := some (description.getD ("Transfer to " ++ toAccountNumber)) }
              newTxnId referenceNumber FailPoint.noFail with
          | (.error e, db') => (.error e, db')
          | (.ok t, db') => (.ok (some t), db')

/-- Result of deposit.service.ts calculateDeposit. -/
structure DepositCalcResult where
  interest_earned : ℚ
  final_amount : ℚ
  monthly_interest : ℚ
deriving DecidableEq, Repr

/-- Embedding of deposit.service.ts calculateDeposit (simple interest):
interest = principal * annualRate * termMonths / (12 * 100), rounded to two
decimals at output. -/
def calculateDeposit (principal annualRate : ℚ) (termMonths : Nat) : DepositCalcResult :=
  let interest := principal * annualRate * (termMonths : ℚ) / (12 * 100)
  let finalAmount := principal + interest
  let monthlyInterest := interest / (termMonths : ℚ)
  { interest_earned := round2 interest
    final_amount := round2 finalAmount
    monthly_interest := round2 monthlyInterest }

/-- Result of deposit.service.ts calculateCompoundDeposit. -/
structure CompoundCalcResult where
  interest_earned : ℚ
  final_amount : ℚ
  monthly_interest_avg : ℚ
deriving DecidableEq, Repr

/-- Embedding of deposit.service.ts calculateCompoundDeposit (monthly
capitalization): finalAmount = principal * (1 + annualRate/12/100) ^
termMonths, rounded to two decimals at output. -/
def calculateCompoundDeposit (principal annualRate : ℚ) (termMonths : Nat) :
    CompoundCalcResult :=
  let monthlyRate := annualRate / 12 / 100
  let finalAmount := principal * (1 + monthlyRate) ^ termMonths
  let interest := finalAmount - principal
  { interest_earned := round2 interest
    final_amount := round2 finalAmount
    monthly_interest_avg := round2 (interest / (termMonths : ℚ)) }

/-- Embedding of deposit.service.ts accrueInterest: reads the deposit row
under lock, requires it active, computes one month of interest, and writes
the capitalized balance only when the deposit type is fixed; for flexible
and savings deposits the transaction commits without any write. -/
def accrueInterest (db : DB) (depositId : Nat) : Except BankError DB :=
  match findDeposit db depositId with
  | none => .error .depositNotFound
  | some d =>
    if d.status ≠ DepositStatus.active then .error .depositNotActive
    else
      let monthlyRate := d.interest_rate / 12 / 100
      let interestAmount := d.current_balance * monthlyRate
      if d.deposit_type = DepositType.fixed then
        .ok (setDepositRow db depositId
          { d with current_balance := d.current_balance + interestAmount })
      else
        .ok db

/-- The returnAmount computation of closeDeposit, factored out verbatim
from the source: the principal for an early-closed fixed deposit (interest
forfeited), the live current_balance for an early-closed flexible or savings
deposit, and the appropriate calculator's final amount on the original
principal, rate and term when closing at maturity. -/
def closeAmount (d : Deposit) (isEarly : Bool) : ℚ :=
  if isEarly then
    if d.deposit_type = DepositType.fixed then d.principal_amount
    else d.current_balance
  else
    if d.deposit_type = DepositType.fixed then
      (calculateCompoundDeposit d.principal_amount d.interest_rate d.term_months).final_amount
    else
      (calculateDeposit d.principal_amount d.interest_rate d.term_months).final_amount

/-- Embedding of deposit.service.ts closeDeposit.  Requires the deposit
active; the return amount is closeAmount above.  The amount is credited to
the funding account (updateAccountBalance, which commits on its own client)
when an account is linked, and the row is updated to status closed with
current_balance set to the returned amount. -/
def closeDeposit (db : DB) (depositId : Nat) (isEarly : Bool) :
    Except BankError (ℚ × DB) :=
  match findDeposit db depositId with
  | none => .error .depositNotFound
  | some d =>
    if d.status ≠ DepositStatus.active then .error .depositNotActive
    else
      let returnAmount := closeAmount d isEarly
      match (match d.account_id with
             | none => Except.ok db
             | some accId => updateAccountBalance db accId returnAmount false) with
      | .error e => .error e
      | .ok db1 =>
        .ok (returnAmount,
          setDepositRow db1 depositId
            { d with status := DepositStatus.closed, current_balance := returnAmount })

/-- Embedding of deposit.service.ts renewDeposit.  The only guard is
is_auto_renewal: the deposit's status is never checked.  The final amount of
a full term on the current principal becomes the new principal and the new
current_balance, and the status is set (back) to active. -/
def renewDeposit (db : DB) (depositId : Nat) : Except BankError (Deposit × DB) :=
  match findDeposit db depositId with
  | none => .error .depositNotFound
  | some d =>
    if ¬ d.is_auto_renewal then .error .autoRenewalNotEnabled
    else
      let finalAmount :=
        if d.deposit_type = DepositType.fixed then
          (calculateCompoundDeposit d.principal_amount d.interest_rate d.term_months).final_amount
        else
          (calculateDeposit d.principal_amount d.interest_rate d.term_months).final_amount
      let newDep :=
        { d with principal_amount := finalAmount
                 current_balance := finalAmount
                 status := DepositStatus.active }
      .ok (newDep, setDepositRow db depositId newDep)

/-- One row of the amortization schedule produced by calculateLoan (the
payment date is omitted). -/
structure LoanScheduleRow where
  payment_number : Nat
  principal_payment : ℚ
  interest_payment : ℚ
  total_payment : ℚ
  remaining_balance : ℚ
deriving DecidableEq, Repr

/-- Result of loan.service.ts calculateLoan. -/
structure LoanCalcResult where
  monthly_payment : ℚ
  total_payment : ℚ
  total_interest : ℚ
  schedule : List LoanScheduleRow
deriving DecidableEq, Repr

/-- The schedule loop of calculateLoan: count rows remain to be produced,
i is the 1-based payment number, remainingBalance the running exact balance.
On the final row (count = 1) the remaining balance is forced to 0 exactly,
as in the source.  Output figures are rounded to two decimals per row. -/
def buildSchedule (monthlyPayment monthlyRate : ℚ) :
    Nat → Nat → ℚ → List LoanScheduleRow
  | 0, _, _ => []
  | Nat.succ k, i, remainingBalance =>
    let interestPayment := remainingBalance * monthlyRate
    let principalPayment := monthlyPayment - interestPayment
    let newBalance := remainingBalance - principalPayment
    let forcedBalance := if k = 0 then 0 else newBalance
    { payment_number := i
      principal_payment := round2 principalPayment
      interest_payment := round2 interestPayment
      total_payment := round2 monthlyPayment
      remaining_balance := max 0 (round2 forcedBalance) }
      :: buildSchedule monthlyPayment monthlyRate k (i + 1) forcedBalance

/-- Embedding of loan.service.ts calculateLoan (annuity formula).  There is
no special case for a zero rate: the payment is always computed as
principal * (r * (1+r)^n) / ((1+r)^n - 1).  At annualRate = 0 the
denominator is 0; JavaScript evaluates 0/0 to NaN, and the exact embedding
evaluates division by zero to 0 — either way the result is not principal/n. -/
def calculateLoan (principal annualRate : ℚ) (termMonths : Nat) : LoanCalcResult :=
  let monthlyRate := annualRate / 12 / 100
  let monthlyPayment := principal * (monthlyRate * (1 + monthlyRate) ^ termMonths) /
    ((1 + monthlyRate) ^ termMonths - 1)
  let schedule := buildSchedule monthlyPayment monthlyRate termMonths 1 principal
  let totalPayment := monthlyPayment * (termMonths : ℚ)
  let totalInterest := totalPayment - principal
  { monthly_payment := round2 monthlyPayment
    total_payment := round2 totalPayment
    total_interest := round2 totalInterest
    schedule := schedule }

/-- One committed ledger mutation attempt: target account id, debit flag and
amount, applied through updateAccountBalance; a failed call leaves the
state unchanged (its transaction rolled back). -/
def applyLedgerOp (db : DB) (op : Nat × Bool × ℚ) : DB :=
  match updateAccountBalance db op.1 op.2.2 op.2.1 with
  | .ok db' => db'
  | .error _ => db

/-- A sequence of ledger mutation attempts applied in order. -/
def applyLedgerOps (db : DB) (ops : List (Nat × Bool × ℚ)) : DB :=
  ops.foldl applyLedgerOp db

/-- Repeated accrual passes: each pass runs accrueInterest and keeps the
previous state when the pass fails. -/
def accrueRun (db : DB) (depositId : Nat) : DB :=
  match accrueInterest db depositId with
  | .ok db' => db'
  | .error _ => db

/-- k accrual passes in sequence. -/
def accrueIter (depositId : Nat) : Nat → DB → DB
  | 0, db => db
  | Nat.succ k, db => accrueIter depositId k (accrueRun db depositId)

/-- Concrete source account used in the transfer scenarios: active, KZT,
balance 100. -/
def acctSrc : Account :=
  { id := 1
    user_id := 1
    account_number := "KZ01"
    account_type := "checking"
    currency := "KZT"
    balance := 100
    available_balance := 100
    status := AccountStatus.active }

/-- Concrete destination account used in the transfer scenarios: active,
KZT, balance 50. -/
def acctDst : Account :=
  { id := 2
    user_id := 2
    account_number := "KZ02"
    account_type := "checking"
    currency := "KZT"
    balance := 50
    available_balance := 50
    status := AccountStatus.active }

/-- Concrete database for the transfer scenarios. -/
def dbTransfer : DB :=
  { users := [{ id := 2, phone := "+77001112233" }]
    accounts := [acctSrc, acctDst]
    transactions := []
    deposits := [] }

/-- Concrete transfer of 40 KZT from account 1 to account 2. -/
def dtoTransfer : CreateTransactionDto :=
  { from_account_id := some 1
    to_account_id := some 2
    transaction_type := TxType.transfer
    amount := 40
    currency := "KZT"
    description := none }

/-- Concrete closed fixed deposit with auto-renewal enabled. -/
def depClosedAuto : Deposit :=
  { id := 5
    user_id := 1
    account_id := none
    deposit_type := DepositType.fixed
    principal_amount := 100
    interest_rate := 12
    term_months := 12
    current_balance := 100
    status := DepositStatus.closed
    is_auto_renewal := true }

/-- Concrete database holding only the closed deposit. -/
def dbDepClosed : DB :=
  { users := []
    accounts := []
    transactions := []
    deposits := [depClosedAuto] }

/-- At least one account id is present on the transaction input, as the
check_accounts schema constraint demands. -/
def legPresent (dto : CreateTransactionDto) : Prop :=
  dto.from_account_id.isSome ∨ dto.to_account_id.isSome

/-- A leg of a transaction references only an existing, active account. -/
def legActive (db : DB) (leg : Option Nat) : Prop :=
  ∀ accId, leg = some accId →
    ∃ a, findAccount db accId = some a ∧ a.status = AccountStatus.active

/-- Concrete active fixed deposit funded by account 1. -/
def depActive : Deposit :=
  { id := 7
    user_id := 1
    account_id := some 1
    deposit_type := DepositType.fixed
    principal_amount := 100
    interest_rate := 12
    term_months := 12
    current_balance := 100
    status := DepositStatus.active
    is_auto_renewal := false }

/-- Concrete database with the active fixed deposit and its funding
account. -/
def dbDepActive : DB :=
  { users := []
    accounts := [acctSrc]
    transactions := []
    deposits := [depActive] }

/-- Concrete active flexible deposit. -/
def depFlex : Deposit :=
  { id := 8
    user_id := 1
    account_id := some 1
    deposit_type := DepositType.flexible
    principal_amount := 200
    interest_rate := 10
    term_months := 6
    current_balance := 200
    status := DepositStatus.active
    is_auto_renewal := true }

/-- Concrete database holding the flexible deposit. -/
def dbDepFlex : DB :=
  { users := []
    accounts := [acctSrc]
    transactions := []
    deposits := [depFlex] }

/-- Concrete transaction input with neither leg present. -/
def dtoNoLegs : CreateTransactionDto :=
  { from_account_id := none
    to_account_id := none
    transaction_type := TxType.payment
    amount := 40
    currency := "KZT"
    description := none }

deriving instance DecidableEq for Except

section ClaimTheorems

attribute [local semireducible] Rat.mul Rat.add Rat.sub Rat.inv

/-- find? commutes with mapping a function that does not change the value of
the search predicate. -/
theorem find?_map_comm {α : Type} (f : α → α) (p : α → Bool)
    (h : ∀ a, p (f a) = p a) :
    ∀ l : List α, (l.map f).find? p = (l.find? p).map f := by
  intro l
  induction l with
  | nil => rfl
  | cons a t ih =>
    simp only [List.map_cons, List.find?, h a]
    cases hpa : p a
    · simpa using ih
    · simp

/-- Reading any account after a balance update: the updated row when the ids
match, the old row otherwise. -/
theorem findAccount_setAccountBalance (db : DB) (i : Nat) (b av : ℚ) (j : Nat) :
    findAccount (setAccountBalance db i b av) j
      = (findAccount db j).map (fun a =>
          if a.id == i then { a with balance := b, available_balance := av } else a) := by
  unfold findAccount setAccountBalance
  exact find?_map_comm _ _ (fun a => by cases hx : a.id == i <;> simp [hx]) db.accounts

/-- Reading the updated deposit row back after setDepositRow, provided the
new row keeps the row id. -/
theorem findDeposit_setDepositRow (db : DB) (depositId : Nat) (newRow : Deposit)
    (hid : (newRow.id == depositId) = true) :
    findDeposit (setDepositRow db depositId newRow) depositId
      = (findDeposit db depositId).map (fun d =>
          if d.id == depositId then newRow else d) := by
  unfold findDeposit setDepositRow
  exact find?_map_comm _ _
    (fun d => by cases hx : d.id == depositId <;> simp [hx, hid]) db.deposits

/-- Account updates do not touch deposit rows. -/
theorem findDeposit_setAccountBalance (db : DB) (i : Nat) (b av : ℚ) (j : Nat) :
    findDeposit (setAccountBalance db i b av) j = findDeposit db j := rfl

/-- Deposit updates do not touch account rows. -/
theorem findAccount_setDepositRow (db : DB) (depositId : Nat) (newRow : Deposit) (j : Nat) :
    findAccount (setDepositRow db depositId newRow) j = findAccount db j := rfl

/-- A found account row satisfies the search predicate. -/
theorem findAccount_some_id (db : DB) (i : Nat) (a : Account)
    (h : findAccount db i = some a) : (a.id == i) = true := by
  unfold findAccount at h
  exact List.find?_some (p := fun (x : Account) => x.id == i) h

/-- A found deposit row satisfies the search predicate. -/
theorem findDeposit_some_id (db : DB) (i : Nat) (d : Deposit)
    (h : findDeposit db i = some d) : (d.id == i) = true := by
  unfold findDeposit at h
  exact List.find?_some (p := fun (x : Deposit) => x.id == i) h

/-- A committed updateAccountBalance keeps every balance nonnegative: the
written balance passed the schema CHECK and every other row is unchanged. -/
theorem updateAccountBalance_ok_nonneg (db : DB) (accId : Nat) (amt : ℚ) (isDebit : Bool)
    (db' : DB) (h : updateAccountBalance db accId amt isDebit = Except.ok db')
    (hnn : ∀ a ∈ db.accounts, 0 ≤ a.balance) :
    ∀ a ∈ db'.accounts, 0 ≤ a.balance := by
  cases hf : findAccount db accId with
  | none => simp [updateAccountBalance, hf] at h
  | some acc =>
    by_cases h1 : (isDebit ∧ acc.available_balance < amt)
    · simp [updateAccountBalance, hf, h1] at h
    · by_cases h2 : (if isDebit then acc.balance - amt else acc.balance + amt) < 0
      · simp [updateAccountBalance, hf, h1, h2] at h
      · simp [updateAccountBalance, hf, h1, h2] at h
        subst h
        intro a ha
        simp only [setAccountBalance, List.mem_map] at ha
        obtain ⟨a0, ha0, rfl⟩ := ha
        cases hx : a0.id == accId
        · simpa [hx] using hnn a0 ha0
        · simpa [hx] using le_of_not_lt h2

/-- A sequence of ledger operations keeps every balance nonnegative. -/
theorem applyLedgerOps_nonneg (ops : List (Nat × Bool × ℚ)) :
    ∀ db, (∀ a ∈ db.accounts, 0 ≤ a.balance) →
      ∀ a ∈ (applyLedgerOps db ops).accounts, 0 ≤ a.balance := by
  induction ops with
  | nil => intro db h; simpa [applyLedgerOps] using h
  | cons op t ih =>
    intro db h
    have hstep : ∀ a ∈ (applyLedgerOp db op).accounts, 0 ≤ a.balance := by
      unfold applyLedgerOp
      cases hu : updateAccountBalance db op.1 op.2.2 op.2.1 with
      | ok db1 => exact updateAccountBalance_ok_nonneg _ _ _ _ _ hu h
      | error e => exact h
    simpa [applyLedgerOps, List.foldl] using ih (applyLedgerOp db op) hstep

/-- C2: starting from account creation (balance 0), any sequence of ledger
operations — debits and credits through updateAccountBalance, against any
accounts — leaves every balance nonnegative: a successful debit passed the
available_balance check and the written balance passed the schema CHECK
(balance >= 0), and a failed operation commits nothing.  Moreover a debit
whose amount exceeds available_balance fails with the insufficient-funds
error (and, the result being an error, commits no balance change). -/
theorem ledger_balance_never_negative :
    (∀ db userId accountType currency newId accountNumber ops,
      (∀ a ∈ db.accounts, 0 ≤ a.balance) →
      ∀ a ∈ (applyLedgerOps
          (createAccount db userId accountType currency newId accountNumber) ops).accounts,
        0 ≤ a.balance) ∧
    (∀ db accId amt acc, findAccount db accId = some acc →
      acc.available_balance < amt →
      updateAccountBalance db accId amt true = Except.error BankError.insufficientFunds) := by
  constructor
  · intro db userId accountType currency newId accountNumber ops h
    apply applyLedgerOps_nonneg
    intro a ha
    simp only [createAccount, List.mem_cons] at ha
    rcases ha with rfl | ha
    · simp
    · exact h a ha
  · intro db accId amt acc hf hlt
    simp [updateAccountBalance, hf, hlt]

/-- Witness for C2 at concrete inputs: a fresh account debited and credited
keeps nonnegative balances, and debiting 1000 from the concrete account with
available balance 100 fails with the insufficient-funds error. -/
theorem ledger_balance_never_negative_witness :
    (∀ a ∈ (applyLedgerOps
        (createAccount { users := [], accounts := [], transactions := [], deposits := [] }
          1 "checking" "KZT" 1 "KZ1") [(1, true, 5), (1, false, 3)]).accounts,
      0 ≤ a.balance) ∧
    updateAccountBalance dbTransfer 1 1000 true
      = Except.error BankError.insufficientFunds :=
  ⟨ledger_balance_never_negative.1 _ 1 "checking" "KZT" 1 "KZ1" _ (by intro a ha; cases ha),
   ledger_balance_never_negative.2 dbTransfer 1 1000 acctSrc (by decide) (by decide)⟩

/-- A leg validates to none exactly when it references only an existing
active account. -/
theorem validateLeg_eq_none_iff (db : DB) (leg : Option Nat) :
    validateLeg db leg = none ↔ legActive db leg := by
  cases leg with
  | none => simp [validateLeg, legActive]
  | some accId =>
    simp only [validateLeg, legActive]
    cases hf : findAccount db accId with
    | none => simp [hf]
    | some a =>
      by_cases hs : a.status = AccountStatus.active
      · simp [hf, hs]
      · simp [hf, hs]

/-- C4: createTransaction fails without creating a transaction row (and
without changing anything) whenever both legs are absent — the insert
violates the check_accounts schema constraint — and whenever a referenced
account is missing or not active; and whenever it returns a transaction, at
least one leg was present and every referenced account existed and was
active. -/
theorem createTransaction_validates :
    ∀ db dto newTxnId referenceNumber failAt,
      (dto.from_account_id = none ∧ dto.to_account_id = none →
        createTransaction db dto newTxnId referenceNumber failAt
          = (Except.error BankError.checkViolation, db)) ∧
      ((¬ legActive db dto.from_account_id ∨ ¬ legActive db dto.to_account_id) →
        ∃ e, createTransaction db dto newTxnId referenceNumber failAt
          = (Except.error e, db)) ∧
      (∀ t, (createTransaction db dto newTxnId referenceNumber failAt).fst = Except.ok t →
        legPresent dto ∧ legActive db dto.from_account_id ∧ legActive db dto.to_account_id) := by
  intro db dto newTxnId referenceNumber failAt
  refine ⟨?_, ?_, ?_⟩
  · rintro ⟨h1, h2⟩
    simp [createTransaction, h1, h2, validateLeg]
  · intro hbad
    cases hv1 : validateLeg db dto.from_account_id with
    | some e => exact ⟨e, by simp [createTransaction, hv1]⟩
    | none =>
      cases hv2 : validateLeg db dto.to_account_id with
      | some e => exact ⟨e, by simp [createTransaction, hv1, hv2]⟩
      | none =>
        exfalso
        rcases hbad with hb | hb
        · exact hb ((validateLeg_eq_none_iff db _).mp hv1)
        · exact hb ((validateLeg_eq_none_iff db _).mp hv2)
  · intro t ht
    cases hv1 : validateLeg db dto.from_account_id with
    | some e => simp [createTransaction, hv1] at ht
    | none =>
      cases hv2 : validateLeg db dto.to_account_id with
      | some e => simp [createTransaction, hv1, hv2] at ht
      | none =>
        by_cases hc : 0 < dto.amount ∧ (dto.from_account_id.isSome ∨ dto.to_account_id.isSome)
        · exact ⟨hc.2, (validateLeg_eq_none_iff db _).mp hv1,
            (validateLeg_eq_none_iff db _).mp hv2⟩
        · simp [createTransaction, hv1, hv2, hc] at ht

/-- Witness for C4 at a concrete input: the transaction with both legs
absent is rejected with the schema check violation and the database is
untouched. -/
theorem createTransaction_validates_witness :
    createTransaction dbTransfer dtoNoLegs 1 2 FailPoint.noFail
      = (Except.error BankError.checkViolation, dbTransfer) :=
  (createTransaction_validates dbTransfer dtoNoLegs 1 2 FailPoint.noFail).1 ⟨rfl, rfl⟩

/-- C1: the claim states that createTransaction is all-or-nothing: a failure
after work has begun rolls back every write performed so far, including any
balance mutation already applied.  The code violates this: the balance legs
run through updateAccountBalance, which commits on its own client, so when a
failure hits after the debit leg (before the credit completes), the debit
stays committed while this client's rollback discards only the pending row.
Concretely: transferring 40 from account 1 (balance 100) to account 2 with a
failure injected after the debit leaves account 1 at 60 — not restored to
100 — and no transaction row at all. -/
theorem createTransaction_failed_credit_keeps_debit :
    (createTransaction dbTransfer dtoTransfer 10 777 FailPoint.afterDebit).fst
      = Except.error BankError.injectedFailure ∧
    ((findAccount (createTransaction dbTransfer dtoTransfer 10 777 FailPoint.afterDebit).snd 1).map
      Account.balance) = some 60 ∧
    (createTransaction dbTransfer dtoTransfer 10 777 FailPoint.afterDebit).snd.transactions = [] ∧
    ((findAccount dbTransfer 1).map Account.balance) = some 100 := by decide

/-- C3: the claim states that calculateLoan with annual rate 0 returns
monthly_payment = principal / termMonths.  The code has no zero-rate branch:
the annuity denominator (1+0)^n - 1 is 0, so the division is 0/0 — NaN in
the JavaScript original, 0 in this exact embedding — and in particular not
principal / termMonths.  Evaluated at principal 1200, rate 0, term 12:
the result is 0, while the claim demands 1200 / 12 = 100. -/
theorem calculateLoan_zero_rate_monthly_payment :
    (calculateLoan 1200 0 12).monthly_payment = 0 ∧
    ((1200 : ℚ) / 12 = 100) ∧
    (calculateLoan 1200 0 12).monthly_payment ≠ (1200 : ℚ) / 12 := by decide

/-- C5 counterexample: the claim states that no operation ever moves a
deposit whose status is closed or matured back to active.  renewDeposit
checks only is_auto_renewal and never checks status, and its UPDATE sets
status to active unconditionally: renewing the concrete closed
auto-renewal deposit succeeds and reopens it to active. -/
theorem renewDeposit_reopens_closed_deposit :
    (findDeposit dbDepClosed 5).map Deposit.status = some DepositStatus.closed ∧
    (renewDeposit dbDepClosed 5).map (fun p => p.fst.status)
      = Except.ok DepositStatus.active ∧
    (renewDeposit dbDepClosed 5).map (fun p => (findDeposit p.snd 5).map Deposit.status)
      = Except.ok (some DepositStatus.active) := by decide

/-- C7 counterexample: the claim states that for amortize(100000, 12, 12)
the sum of the schedule's 12 rounded principal_payment values equals 100000
to the cent.  Computing the schedule exactly, the rounded per-row principal
payments sum to 100000.01 — one cent over the principal. -/
theorem amortization_principal_sum_one_cent_high :
    ((calculateLoan 100000 12 12).schedule.map LoanScheduleRow.principal_payment).sum
      = 10000001 / 100 ∧
    ((10000001 : ℚ) / 100) ≠ 100000 := by decide

/-- C7 amended: for amortize(100000, 12, 12) the schedule has 12 rows, the
last row's remaining_balance is exactly 0 (the final installment is forced
to zero), and the sum of the rounded principal_payment values is 100000.01 —
one cent over the principal, because the per-row rounding residue is not
reconciled against the principal. -/
theorem amortization_last_row_zero_and_sum :
    (calculateLoan 100000 12 12).schedule.length = 12 ∧
    ((calculateLoan 100000 12 12).schedule.map LoanScheduleRow.remaining_balance).getLast?
      = some 0 ∧
    ((calculateLoan 100000 12 12).schedule.map LoanScheduleRow.principal_payment).sum
      = 10000001 / 100 := by decide

/-- C8 counterexample: the claim states the compound calculator's
interest_earned is strictly greater than the simple calculator's for every
positive principal, rate and term.  At term_months = 1 the two formulas
coincide exactly — (1+r)^1 - 1 = r — so at principal 10000, rate 12,
term 1 both return 100 and the strict inequality fails. -/
theorem compound_not_gt_simple_one_month :
    (calculateCompoundDeposit 10000 12 1).interest_earned
      = (calculateDeposit 10000 12 1).interest_earned ∧
    ¬ ((calculateDeposit 10000 12 1).interest_earned
        < (calculateCompoundDeposit 10000 12 1).interest_earned) := by decide

/-- A successful createTransaction returns exactly the row it appended:
fresh id, status completed, the given reference number, present in the
committed transactions table. -/
theorem createTransaction_ok_shape :
    ∀ db dto newTxnId referenceNumber failAt t db',
      createTransaction db dto newTxnId referenceNumber failAt = (Except.ok t, db') →
      t.id = newTxnId ∧ t.status = TxStatus.completed ∧ t ∈ db'.transactions := by
  intro db dto nid ref failAt t db' h
  cases hv1 : validateLeg db dto.from_account_id with
  | some e => simp [createTransaction, hv1] at h
  | none =>
  cases hv2 : validateLeg db dto.to_account_id with
  | some e => simp [createTransaction, hv1, hv2] at h
  | none =>
  by_cases hc : 0 < dto.amount ∧ (dto.from_account_id.isSome ∨ dto.to_account_id.isSome)
  case neg => simp [createTransaction, hv1, hv2, hc] at h
  case pos =>
  by_cases hfi : failAt = FailPoint.afterInsert
  case pos => simp [createTransaction, hv1, hv2, hc, hfi] at h
  case neg =>
  cases hdeb : (match dto.from_account_id with
               | none => Except.ok db
               | some fromId => updateAccountBalance db fromId dto.amount true) with
  | error e => simp [createTransaction, hv1, hv2, hc, hfi, hdeb] at h
  | ok db1 =>
  by_cases hfd : failAt = FailPoint.afterDebit
  case pos => simp [createTransaction, hv1, hv2, hc, hfi, hdeb, hfd] at h
  case neg =>
  cases hcred : (match dto.to_account_id with
                | none => Except.ok db1
                | some toId => updateAccountBalance db1 toId dto.amount false) with
  | error e => simp [createTransaction, hv1, hv2, hc, hfi, hdeb, hfd, hcred] at h
  | ok db2 =>
    simp [createTransaction, hv1, hv2, hc, hfi, hdeb, hfd, hcred] at h
    obtain ⟨h1, h2⟩ := h
    subst h1
    subst h2
    refine ⟨rfl, rfl, ?_⟩
    simp

/-- C6: on its success path transferToPhone performs the transfer — the
committed state holds the created, completed transaction — but hands back
undefined (modelled: none) instead of the transaction, whereas
transferToAccount returns the transaction created by its delegated
createTransaction call. -/
theorem transfers_return_values :
    ∀ db fromUserId fromAccountId toPhone toAccountNumber amount description
      newTxnId referenceNumber,
      (∀ v, (transferToPhone db fromUserId fromAccountId toPhone amount description
          newTxnId referenceNumber).fst = Except.ok v →
        v = none ∧ ∃ t, t.id = newTxnId ∧ t.status = TxStatus.completed ∧
          t ∈ (transferToPhone db fromUserId fromAccountId toPhone amount description
            newTxnId referenceNumber).snd.transactions) ∧
      (∀ w, (transferToAccount db fromAccountId toAccountNumber amount description
          newTxnId referenceNumber).fst = Except.ok w →
        ∃ t, w = some t ∧ t.id = newTxnId ∧ t.status = TxStatus.completed ∧
          t ∈ (transferToAccount db fromAccountId toAccountNumber amount description
            newTxnId referenceNumber).snd.transactions) := by
  intro db fromUserId fromAccountId toPhone toAccountNumber amount description nid ref
  constructor
  · intro v hv
    cases hu : db.users.find? (fun u => u.phone == toPhone) with
    | none => simp [transferToPhone, hu] at hv
    | some recipient =>
    cases hfa : findAccount db fromAccountId with
    | none => simp [transferToPhone, hu, hfa] at hv
    | some fromAccount =>
    cases hra : db.accounts.find? (fun a =>
        a.user_id == recipient.id && a.currency == fromAccount.currency &&
          a.status == AccountStatus.active) with
    | none => simp [transferToPhone, hu, hfa, hra] at hv
    | some toAccount =>
    cases hct : createTransaction db
        { from_account_id := some fromAccountId
          to_account_id := some toAccount.id
          transaction_type := TxType.transfer
          amount := amount
          currency := fromAccount.currency
          description := some (description.getD ("Transfer to " ++ toPhone)) }
        nid ref FailPoint.noFail with
    | mk res db2 =>
    cases res with
    | error e => simp [transferToPhone, hu, hfa, hra, hct] at hv
    | ok t0 =>
      have hv2 : v = none := by
        simp [transferToPhone, hu, hfa, hra, hct] at hv
        exact hv.symm
      have shape := createTransaction_ok_shape db _ nid ref FailPoint.noFail t0 db2 hct
      refine ⟨hv2, t0, shape.1, shape.2.1, ?_⟩
      simp only [transferToPhone, hu, hfa, hra, hct]
      exact shape.2.2
  · intro w hw
    cases hta : db.accounts.find? (fun a => a.account_number == toAccountNumber) with
    | none => simp [transferToAccount, hta] at hw
    | some toAccount =>
    by_cases hst : toAccount.status ≠ AccountStatus.active
    · simp [transferToAccount, hta, hst] at hw
    · cases hfa : findAccount db fromAccountId with
      | none => simp [transferToAccount, hta, hst, hfa] at hw
      | some fromAccount =>
      by_cases hcur : fromAccount.currency ≠ toAccount.currency
      · simp [transferToAccount, hta, hst, hfa, hcur] at hw
      · cases hct : createTransaction db
            { from_account_id := some fromAccountId
              to_account_id := some toAccount.id
              transaction_type := TxType.transfer
              amount := amount
              currency := fromAccount.currency
              description := some (description.getD ("Transfer to " ++ toAccountNumber)) }
            nid ref FailPoint.noFail with
        | mk res db2 =>
        cases res with
        | error e => simp [transferToAccount, hta, hst, hfa, hcur, hct] at hw
        | ok t0 =>
          have hw2 : w = some t0 := by
            simp [transferToAccount, hta, hst, hfa, hcur, hct] at hw
            exact hw.symm
          have shape := createTransaction_ok_shape db _ nid ref FailPoint.noFail t0 db2 hct
          refine ⟨t0, hw2, shape.1, shape.2.1, ?_⟩
          simp only [transferToAccount, hta, hst, hfa, hcur, hct, if_false]
          simpa using shape.2.2

/-- Witness for C6 at concrete inputs: the phone transfer of 40 KZT succeeds
and its success value is none even though the completed transaction exists
in the committed state. -/
theorem transfers_return_values_witness :
    (transferToPhone dbTransfer 1 1 "+77001112233" 40 none 10 777).fst
      = Except.ok none ∧
    ((none : Option TxnRow) = none ∧ ∃ t, t.id = 10 ∧ t.status = TxStatus.completed ∧
      t ∈ (transferToPhone dbTransfer 1 1 "+77001112233" 40 none 10 777).snd.transactions) :=
  ⟨by decide,
   (transfers_return_values dbTransfer 1 1 "+77001112233" "KZ02" 40 none 10 777).1
     none (by decide)⟩

/-- C5 amended: closeDeposit performs only active → closed (it fails with
the not-active error on any other status), but renewDeposit checks only
is_auto_renewal — never the status — and unconditionally sets status back to
active, so a closed or matured deposit with auto-renewal enabled is
reopened. -/
theorem deposit_status_transitions :
    ∀ db depositId d,
      findDeposit db depositId = some d →
      ((∀ isEarly, d.status ≠ DepositStatus.active →
          closeDeposit db depositId isEarly = Except.error BankError.depositNotActive) ∧
       (d.is_auto_renewal = true →
          ∃ p, renewDeposit db depositId = Except.ok p ∧
            p.fst.status = DepositStatus.active ∧
            (findDeposit p.snd depositId).map Deposit.status = some DepositStatus.active) ∧
       (d.is_auto_renewal = false →
          renewDeposit db depositId = Except.error BankError.autoRenewalNotEnabled)) := by
  intro db depositId d hf
  refine ⟨?_, ?_, ?_⟩
  · intro isEarly hst
    simp [closeDeposit, hf, hst]
  · intro hauto
    have hrenew : renewDeposit db depositId
        = Except.ok
            ({ d with
                principal_amount := if d.deposit_type = DepositType.fixed then
                    (calculateCompoundDeposit d.principal_amount d.interest_rate
                      d.term_months).final_amount
                  else
                    (calculateDeposit d.principal_amount d.interest_rate
                      d.term_months).final_amount
                current_balance := if d.deposit_type = DepositType.fixed then
                    (calculateCompoundDeposit d.principal_amount d.interest_rate
                      d.term_months).final_amount
                  else
                    (calculateDeposit d.principal_amount d.interest_rate
                      d.term_months).final_amount
                status := DepositStatus.active },
             setDepositRow db depositId
               { d with
                  principal_amount := if d.deposit_type = DepositType.fixed then
                      (calculateCompoundDeposit d.principal_amount d.interest_rate
                        d.term_months).final_amount
                    else
                      (calculateDeposit d.principal_amount d.interest_rate
                        d.term_months).final_amount
                  current_balance := if d.deposit_type = DepositType.fixed then
                      (calculateCompoundDeposit d.principal_amount d.interest_rate
                        d.term_months).final_amount
                    else
                      (calculateDeposit d.principal_amount d.interest_rate
                        d.term_months).final_amount
                  status := DepositStatus.active }) := by
      simp [renewDeposit, hf, hauto]
    refine ⟨_, hrenew, rfl, ?_⟩
    rw [findDeposit_setDepositRow db depositId _
        (by simpa using findDeposit_some_id db depositId d hf), hf]
    have hid : d.id = depositId := by simpa using findDeposit_some_id db depositId d hf
    simp [hid]
  · intro hauto
    simp [renewDeposit, hf, hauto]

/-- Witness for C5 amended at the concrete closed auto-renewal deposit:
closing it fails with the not-active error, while renewing it succeeds and
reopens it to active. -/
theorem deposit_status_transitions_witness :
    closeDeposit dbDepClosed 5 true = Except.error BankError.depositNotActive ∧
    ∃ p, renewDeposit dbDepClosed 5 = Except.ok p ∧
      p.fst.status = DepositStatus.active ∧
      (findDeposit p.snd 5).map Deposit.status = some DepositStatus.active :=
  ⟨(deposit_status_transitions dbDepClosed 5 depClosedAuto (by decide)).1 true (by decide),
   (deposit_status_transitions dbDepClosed 5 depClosedAuto (by decide)).2.1 (by decide)⟩

/-- C9: closing an active deposit succeeds and returns exactly the claimed
amount — principal for early-closed fixed, live current_balance for
early-closed flexible or savings, the appropriate calculator's final amount
on the original principal, rate and term otherwise — credits that amount to
the funding account when one is linked, and marks the deposit closed with
current_balance set to the returned amount.  The account-side hypotheses say
the linked funding account exists and the credited balance passes the
schema's nonnegativity CHECK. -/
theorem closeDeposit_returns_and_credits :
    ∀ db depositId d isEarly,
      findDeposit db depositId = some d →
      d.status = DepositStatus.active →
      (∀ accId, d.account_id = some accId →
        ∃ acc, findAccount db accId = some acc ∧
          0 ≤ acc.balance + closeAmount d isEarly) →
      ∃ db',
        closeDeposit db depositId isEarly
          = Except.ok
              ((if isEarly then
                  if d.deposit_type = DepositType.fixed then d.principal_amount
                  else d.current_balance
                else
                  if d.deposit_type = DepositType.fixed then
                    (calculateCompoundDeposit d.principal_amount d.interest_rate
                      d.term_months).final_amount
                  else
                    (calculateDeposit d.principal_amount d.interest_rate
                      d.term_months).final_amount), db') ∧
        (findDeposit db' depositId).map Deposit.status = some DepositStatus.closed ∧
        (findDeposit db' depositId).map Deposit.current_balance
          = some (closeAmount d isEarly) ∧
        (∀ accId acc, d.account_id = some accId → findAccount db accId = some acc →
          (findAccount db' accId).map Account.balance
            = some (acc.balance + closeAmount d isEarly)) := by
  intro db depositId d isEarly hf hst hacc
  have hid : d.id = depositId := by simpa using findDeposit_some_id db depositId d hf
  cases haid : d.account_id with
  | none =>
    refine ⟨setDepositRow db depositId
        { d with status := DepositStatus.closed, current_balance := closeAmount d isEarly },
      ?_, ?_, ?_, ?_⟩
    · simp [closeDeposit, hf, hst, haid, closeAmount]
    · rw [findDeposit_setDepositRow db depositId _ (by simp [hid]), hf]
      simp [hid]
    · rw [findDeposit_setDepositRow db depositId _ (by simp [hid]), hf]
      simp [hid]
    · intro accId acc h1 h2
      exact Option.noConfusion h1
  | some accId =>
    obtain ⟨acc, hfacc, hnn⟩ := hacc accId haid
    have hidacc : acc.id = accId := by simpa using findAccount_some_id db accId acc hfacc
    have hupd : updateAccountBalance db accId (closeAmount d isEarly) false
        = Except.ok (setAccountBalance db accId (acc.balance + closeAmount d isEarly)
            (acc.available_balance + closeAmount d isEarly)) := by
      simp [updateAccountBalance, hfacc, not_lt.mpr hnn]
    refine ⟨setDepositRow (setAccountBalance db accId (acc.balance + closeAmount d isEarly)
        (acc.available_balance + closeAmount d isEarly)) depositId
        { d with status := DepositStatus.closed, current_balance := closeAmount d isEarly },
      ?_, ?_, ?_, ?_⟩
    · show closeDeposit db depositId isEarly = Except.ok (closeAmount d isEarly, _)
      simp [closeDeposit, hf, hst, haid, hupd]
    · rw [findDeposit_setDepositRow _ depositId _ (by simp [hid]),
        findDeposit_setAccountBalance, hf]
      simp [hid]
    · rw [findDeposit_setDepositRow _ depositId _ (by simp [hid]),
        findDeposit_setAccountBalance, hf]
      simp [hid]
    · intro accId2 acc2 h1 h2
      have h1' : accId = accId2 := Option.some.inj h1
      subst h1'
      rw [hfacc] at h2
      have h2' : acc = acc2 := Option.some.inj h2
      subst h2'
      rw [findAccount_setDepositRow, findAccount_setAccountBalance, hfacc]
      simp [hidacc]

/-- Witness for C9 at the concrete active fixed deposit closed early: it
pays out exactly the principal, the funding account is credited and the
deposit is left closed. -/
theorem closeDeposit_returns_and_credits_witness :
    ∃ db', closeDeposit dbDepActive 7 true = Except.ok (closeAmount depActive true, db') ∧
      (findDeposit db' 7).map Deposit.status = some DepositStatus.closed ∧
      (findDeposit db' 7).map Deposit.current_balance = some (closeAmount depActive true) ∧
      (∀ accId acc, depActive.account_id = some accId →
        findAccount dbDepActive accId = some acc →
        (findAccount db' accId).map Account.balance
          = some (acc.balance + closeAmount depActive true)) :=
  closeDeposit_returns_and_credits dbDepActive 7 depActive true (by decide) (by decide)
    (by
      intro accId hacc
      have h1 : (1 : Nat) = accId := Option.some.inj hacc
      subst h1
      exact ⟨acctSrc, by decide, by decide⟩)

/-- C10: running accrueInterest on an active non-fixed (flexible or savings)
deposit succeeds and performs no write at all — the whole database state is
returned unchanged — and therefore any number of accrual passes leaves its
current_balance untouched; in particular it stays equal to the original
principal whenever it started there. -/
theorem accrueInterest_nonfixed_frame :
    ∀ db depositId d,
      findDeposit db depositId = some d →
      d.status = DepositStatus.active →
      d.deposit_type ≠ DepositType.fixed →
      accrueInterest db depositId = Except.ok db ∧
      (∀ k, accrueIter depositId k db = db) ∧
      (∀ k, (findDeposit (accrueIter depositId k db) depositId).map Deposit.current_balance
          = some d.current_balance) ∧
      (d.current_balance = d.principal_amount →
        ∀ k, (findDeposit (accrueIter depositId k db) depositId).map Deposit.current_balance
          = some d.principal_amount) := by
  intro db depositId d hf hst hft
  have h1 : accrueInterest db depositId = Except.ok db := by
    simp [accrueInterest, hf, hst, hft]
  have h2 : ∀ k, accrueIter depositId k db = db := by
    intro k
    induction k with
    | zero => rfl
    | succ k ih =>
      have hrun : accrueRun db depositId = db := by simp [accrueRun, h1]
      simp [accrueIter, hrun, ih]
  have h3 : ∀ k, (findDeposit (accrueIter depositId k db) depositId).map
      Deposit.current_balance = some d.current_balance := by
    intro k
    rw [h2 k]
    simp [hf]
  refine ⟨h1, h2, h3, ?_⟩
  intro hcb k
  rw [h3 k, hcb]

/-- Witness for C10 at the concrete active flexible deposit: one accrual
pass and five accrual passes leave the state unchanged and the balance still
equal to the principal. -/
theorem accrueInterest_nonfixed_frame_witness :
    accrueInterest dbDepFlex 8 = Except.ok dbDepFlex ∧
    accrueIter 8 5 dbDepFlex = dbDepFlex ∧
    (findDeposit (accrueIter 8 5 dbDepFlex) 8).map Deposit.current_balance
      = some depFlex.principal_amount := by
  have h := accrueInterest_nonfixed_frame dbDepFlex 8 depFlex (by decide) (by decide) (by decide)
  exact ⟨h.1, h.2.1 5, h.2.2.2 (by decide) 5⟩

/-- The executable floor on ℚ agrees with the floor of the FloorRing
instance. -/
theorem ratFloor_eq_intFloor (q : ℚ) : Rat.floor q = ⌊q⌋ := by
  rw [Rat.floor_def', Rat.floor_def]

/-- Two-decimal rounding is monotone. -/
theorem round2_mono {x y : ℚ} (h : x ≤ y) : round2 x ≤ round2 y := by
  unfold round2
  rw [ratFloor_eq_intFloor, ratFloor_eq_intFloor]
  have h3 : ⌊x * 100 + 1/2⌋ ≤ ⌊y * 100 + 1/2⌋ := Int.floor_mono (by linarith)
  have h4 : ((⌊x * 100 + 1/2⌋ : ℤ) : ℚ) ≤ ((⌊y * 100 + 1/2⌋ : ℤ) : ℚ) := by
    exact_mod_cast h3
  linarith

/-- C8 amended: for every positive principal, rate and term the compound
calculator's interest_earned is at least the simple calculator's — the
unrounded compound interest dominates by the Bernoulli inequality and the
output rounding is monotone — and the inequality is strict at the concrete
instance (10000, 12, 12).  Strictness fails in general: at term 1 the two
calculators coincide. -/
theorem compound_interest_ge_simple :
    ∀ (principal annualRate : ℚ) (termMonths : Nat),
      0 < principal → 0 < annualRate → 0 < termMonths →
      (calculateDeposit principal annualRate termMonths).interest_earned
        ≤ (calculateCompoundDeposit principal annualRate termMonths).interest_earned ∧
      (calculateDeposit 10000 12 12).interest_earned
        < (calculateCompoundDeposit 10000 12 12).interest_earned := by
  intro p r n hp hr hn
  constructor
  · unfold calculateDeposit calculateCompoundDeposit
    dsimp only
    apply round2_mono
    have hm : (0:ℚ) ≤ r / 12 / 100 := by positivity
    have hb : 1 + (n:ℚ) * (r/12/100) ≤ (1 + r/12/100) ^ n :=
      one_add_mul_le_pow (by linarith) n
    have h1 : p * ((n:ℚ) * (r/12/100)) ≤ p * ((1 + r/12/100)^n - 1) :=
      mul_le_mul_of_nonneg_left (by linarith) (le_of_lt hp)
    calc p * r * (n:ℚ) / (12*100) = p * ((n:ℚ) * (r/12/100)) := by ring
      _ ≤ p * ((1 + r/12/100)^n - 1) := h1
      _ = p * (1 + r/12/100)^n - p := by ring
  · decide

/-- Witness for C8 amended at concrete inputs: principal 5000, rate 7,
term 24 satisfies the inequality, and the concrete strict instance holds. -/
theorem compound_interest_ge_simple_witness :
    ((calculateDeposit 5000 7 24).interest_earned
      ≤ (calculateCompoundDeposit 5000 7 24).interest_earned) ∧
    ((calculateDeposit 10000 12 12).interest_earned
      < (calculateCompoundDeposit 10000 12 12).interest_earned) :=
  compound_interest_ge_simple 5000 7 24 (by norm_num) (by norm_num) (by norm_num)

end ClaimTheorems

end Banking
